import Mathlib

/-!
# Verification of the thesis-assistant ingestion core

Shallow embedding of the document-ingestion core of the repository:
the extraction worker (`src/assets/workers/ingestWorker.js`) and the
dispatcher facade (class `Ingest`).  JavaScript strings are modelled as
Lean `String` where only identity matters and as `List Char` where
character-level operations (trimming, collapsing, truncation) matter.
JavaScript objects with optional fields are modelled as structures with
`Option` fields (`none` = the field is absent / `undefined`).
-/

/-- The JavaScript whitespace class used by the regex `\s` and by
`String.prototype.trim`, restricted to the code points the repository's
text processing can meet; both the code-side and the spec-side cleaning
functions below use this single predicate. -/
def jsWhitespace (c : Char) : Bool :=
  c == ' ' || c == '\t' || c == '\n' || c == '\r' || c == '\x0b' || c == '\x0c' || c == '\u00a0'

/-- JavaScript `a || b` on strings: `a` when `a` is truthy (non-empty),
otherwise `b`. -/
def jsOrList (a b : List Char) : List Char :=
  match a with
  | [] => b
  | c :: cs => c :: cs

/-- One pass of the global regex replacement `replace(/\s+/g, ' ')`:
the flag records whether the previous character belonged to a whitespace
run that has already been replaced by a single space. -/
def collapseAux : Bool → List Char → List Char
  | _, [] => []
  | prevWS, c :: cs =>
    if jsWhitespace c then
      (if prevWS then [] else [' ']) ++ collapseAux true cs
    else
      c :: collapseAux false cs

/-- The global replacement `replace(/\s+/g, ' ')`: every maximal run of
consecutive whitespace becomes a single space. -/
def collapseWS (l : List Char) : List Char := collapseAux false l

/-- JavaScript `String.prototype.trim`: drop leading and trailing
whitespace. -/
def jsTrim (l : List Char) : List Char :=
  ((l.dropWhile jsWhitespace).reverse.dropWhile jsWhitespace).reverse

/-- Line 70 of the worker: `bodyText.replace(/\s+/g, ' ').trim()`. -/
def cleanText (l : List Char) : List Char := jsTrim (collapseWS l)

/-! ## DOM model

`handleHtmlFetch` interacts with the parsed document only through
`querySelector` / `querySelectorAll`; the document is therefore modelled
by the answers to exactly the queries the worker makes. -/

/-- An element as the worker reads it: its `textContent` and `innerText`. -/
structure DomElement where
  textContent : List Char
  innerText : List Char
deriving DecidableEq

/-- Line 64 of the worker: `element.textContent || element.innerText || ''`. -/
def elementText (e : DomElement) : List Char :=
  jsOrList e.textContent (jsOrList e.innerText [])

/-- An element of `querySelectorAll('a[href]')`: its `textContent` and its
resolved `href` property. -/
structure Anchor where
  textContent : List Char
  href : List Char
deriving DecidableEq

/-- An element of `querySelectorAll('h1, h2, h3, h4, h5, h6')`: its
`tagName` and its `textContent`. -/
structure Heading where
  tagName : String
  textContent : List Char
deriving DecidableEq

/-- The parsed HTML document, by the queries the worker makes against it:
the `title` element's `textContent` (if the element exists), the
description meta tag's `content` attribute (if present), the first element
matching each selector, and the document-order element lists for the two
`querySelectorAll` calls. -/
structure HtmlDoc where
  titleText : Option (List Char)
  metaDescContent : Option (List Char)
  queryFirst : String → Option DomElement
  anchors : List Anchor
  headings : List Heading

/-! ## Worker: HTML extraction (`handleHtmlFetch`) -/

/-- Lines 51-59 of the worker: the ordered content-selector probe list. -/
def contentSelectors : List String :=
  ["main", "article", ".content", "#content", ".post-content", ".entry-content", "body"]

/-- Lines 61-67 of the worker: walk the selector list, take the text of
the first selector that matches an element, and stop; `bodyText` keeps
its initial value `''` when no selector matches. -/
def probeLoop (doc : HtmlDoc) : List String → List Char
  | [] => []
  | sel :: rest =>
    match doc.queryFirst sel with
    | some e => elementText e
    | none => probeLoop doc rest

/-- The raw body text of lines 50-67 (before cleaning). -/
def rawBodyText (doc : HtmlDoc) : List Char := probeLoop doc contentSelectors

/-- A link record `{text, href}` built on lines 74-77. -/
structure LinkRec where
  text : List Char
  href : List Char
deriving DecidableEq

/-- A heading record `{level, text}` built on lines 82-85. -/
structure HeadingRec where
  level : String
  text : List Char
deriving DecidableEq

/-- Lines 73-78: map each `a[href]` element to `{text, href}` with the
text trimmed, then keep only records whose text and href are truthy
(non-empty); no truncation yet. -/
def filteredLinks (doc : HtmlDoc) : List LinkRec :=
  (doc.anchors.map fun a => LinkRec.mk (jsTrim a.textContent) a.href).filter
    fun l => !l.text.isEmpty && !l.href.isEmpty

/-- Lines 81-86: map each heading element to `{level, text}` with the tag
name lower-cased and the text trimmed, then keep only records with truthy
(non-empty) text; no truncation yet. -/
def filteredHeadings (doc : HtmlDoc) : List HeadingRec :=
  (doc.headings.map fun h => HeadingRec.mk h.tagName.toLower (jsTrim h.textContent)).filter
    fun h => !h.text.isEmpty

/-- Line 46: `document.querySelector('title')?.textContent || 'No title found'`. -/
def extractTitle (doc : HtmlDoc) : List Char :=
  jsOrList (doc.titleText.getD []) "No title found".data

/-- Line 47: `document.querySelector('meta[name="description"]')?.getAttribute('content') || ''`. -/
def extractMetaDesc (doc : HtmlDoc) : List Char :=
  jsOrList (doc.metaDescContent.getD []) []

/-- The `data` field of a successful HTML result (lines 92-101). -/
structure HtmlData where
  url : String
  title : List Char
  metaDescription : List Char
  bodyText : List Char
  links : List LinkRec
  headings : List HeadingRec
  contentLength : Nat
  fetchedAt : String
deriving DecidableEq

/-- The placeholder content record of lines 147-153. -/
structure PdfContent where
  text : String
  pages : String
  author : String
  subject : String
  creator : String
deriving DecidableEq

/-- The file metadata record of lines 126-131 (the last-modified
timestamp is kept as the raw millisecond count; its ISO rendering is not
needed by any claim). -/
structure PdfMetadata where
  name : String
  size : Nat
  mimeType : String
  lastModified : Nat
deriving DecidableEq

/-- The `data` field of a successful PDF result (lines 159-164). -/
structure PdfData where
  metadata : PdfMetadata
  content : PdfContent
  extractedAt : String
  note : String
deriving DecidableEq

/-- Either kind of `data` payload a worker success message can carry. -/
inductive ExtractData where
  | htmlExtract (d : HtmlData)
  | pdfExtract (d : PdfData)
deriving DecidableEq

/-- A message posted by the worker to the main thread.  Every field is
optional: a worker `postMessage` literal sets only some of them, and the
dispatcher destructures fields that may be absent.  In particular no
`postMessage` call in the worker ever sets `type`. -/
structure WorkerMsg where
  type : Option String := none
  payload : Option ExtractData := none
  operation : Option String := none
  success : Option Bool := none
  error : Option String := none
  data : Option ExtractData := none
  url : Option String := none
  filename : Option String := none
deriving DecidableEq

/-- The outcome of `fetch(url)` followed by `response.text()` and HTML
parsing as one environment-supplied value: either a rejected
fetch/read (its error message), or a response with its status, status
text and parsed document (the `DOMParser` never throws on `text/html`
input). -/
inductive FetchOutcome where
  | networkError (msg : String)
  | response (status : Nat) (statusText : String) (body : HtmlDoc)

/-- JavaScript `Response.ok`: status in the inclusive range 200-299. -/
def responseOk (status : Nat) : Bool := 200 ≤ status && status ≤ 299

/-- The failure message of lines 105-110. -/
def htmlFailureMsg (url msg : String) : WorkerMsg :=
  { operation := some "html"
    success := some false
    error := some ("Failed to fetch/parse HTML: " ++ msg)
    url := some url }

/-- The success message of lines 89-102. -/
def htmlSuccessMsg (url : String) (doc : HtmlDoc) (now : String) : WorkerMsg :=
  { operation := some "html"
    success := some true
    data := some (ExtractData.htmlExtract
      { url := url
        title := extractTitle doc
        metaDescription := extractMetaDesc doc
        bodyText := (cleanText (rawBodyText doc)).take 10000
        links := (filteredLinks doc).take 50
        headings := (filteredHeadings doc).take 20
        contentLength := (cleanText (rawBodyText doc)).length
        fetchedAt := now }) }

/-- The worker's `handleHtmlFetch` (lines 30-112): a rejected fetch or a non-2xx
status lands in the `catch` block and yields the failure message;
otherwise the success message carrying the document extract is posted.
`now` is the ISO rendering of the wall clock at emission time. -/
def handleHtmlFetch (url : String) (f : FetchOutcome) (now : String) : WorkerMsg :=
  match f with
  | FetchOutcome.networkError msg => htmlFailureMsg url msg
  | FetchOutcome.response status statusText doc =>
    if responseOk status then
      htmlSuccessMsg url doc now
    else
      htmlFailureMsg url ("HTTP " ++ toString status ++ ": " ++ statusText)

/-! ## Worker: PDF validation (`handlePdfParse`) -/

/-- A JavaScript `File` object as the repository reads it: `name`,
`type` (declared MIME type, renamed since `type` is reserved in Lean),
`size`, `lastModified` and the byte content its `arrayBuffer()` yields. -/
structure JSFile where
  name : String
  mimeType : String
  size : Nat
  lastModified : Nat
  bytes : List Nat
deriving DecidableEq

/-- JavaScript `s || d` on strings: `s` when non-empty, else `d`. -/
def jsStrOr (s d : String) : String := if s = "" then d else s

/-- JavaScript `s || d` where `s` may be `undefined`. -/
def jsStrOptOr (s : Option String) (d : String) : String :=
  match s with
  | some v => jsStrOr v d
  | none => d

/-- JavaScript `pattern.startsWith` semantics, characterwise: the first
argument is the pattern that must head the second. -/
def startsWithList : List Char → List Char → Bool
  | [], _ => true
  | _ :: _, [] => false
  | p :: ps, c :: cs => p = c && startsWithList ps cs

/-- Lines 137-139 of the worker: `String.fromCharCode` applied to the
first four bytes of the buffer. -/
def fileStartChars (bytes : List Nat) : List Char :=
  (bytes.take 4).map fun b => Char.ofNat b

/-- Line 141 of the worker: `fileStart.startsWith('%PDF')`. -/
def pdfSigOk (bytes : List Nat) : Bool :=
  startsWithList "%PDF".data (fileStartChars bytes)

/-- The failure message of lines 168-173; an empty file name falls back
to `'unknown'` because `''` is falsy. -/
def pdfFailureMsg (f : JSFile) (msg : String) : WorkerMsg :=
  { operation := some "pdf"
    success := some false
    error := some ("Failed to parse PDF: " ++ msg)
    filename := some (jsStrOr f.name "unknown") }

/-- The placeholder content record of lines 147-153. -/
def pdfPlaceholderContent : PdfContent :=
  { text := "PDF content extraction would be implemented here using PDF.js library"
    pages := "Unknown"
    author := "Unknown"
    subject := "Unknown"
    creator := "Unknown" }

/-- The success message of lines 156-165. -/
def pdfSuccessMsg (f : JSFile) (now : String) : WorkerMsg :=
  { operation := some "pdf"
    success := some true
    data := some (ExtractData.pdfExtract
      { metadata :=
          { name := f.name, size := f.size, mimeType := f.mimeType
            lastModified := f.lastModified }
        content := pdfPlaceholderContent
        extractedAt := now
        note := "PDF parsing requires PDF.js library integration for full functionality" }) }

/-- The worker's `handlePdfParse` (lines 115-175).  The declared MIME
type is checked first (line 118); the `arrayBuffer()` read happens next
(`readErr` is its rejection, if any); only then is the `%PDF` signature
checked (line 141).  Every thrown error is caught on line 167 and
wrapped into the failure message. -/
def handlePdfParse (f : JSFile) (readErr : Option String) (now : String) : WorkerMsg :=
  if f.mimeType ≠ "application/pdf" then
    pdfFailureMsg f "File is not a PDF document"
  else
    match readErr with
    | some e => pdfFailureMsg f e
    | none =>
      if !pdfSigOk f.bytes then
        pdfFailureMsg f "Invalid PDF file format"
      else
        pdfSuccessMsg f now

/-! ## Worker: inbound message listener -/

/-- The `payload` value of a dispatcher-to-worker task message
(lines 125-128 and 163-168 of the dispatcher). -/
inductive TaskPayload where
  | urlPayload (url : String) (timestamp : Nat)
  | pdfPayload (fileName : String) (fileSize : Nat) (fileData : List Nat) (timestamp : Nat)
deriving DecidableEq

/-- A message posted by the dispatcher (main thread) to the worker.
Every field is optional; the dispatcher sets `type` and possibly
`payload`, while the worker's listener destructures `operation`, `url`
and `file`, which may be absent. -/
structure MainToWorkerMsg where
  type : Option String := none
  payload : Option TaskPayload := none
  operation : Option String := none
  url : Option String := none
  file : Option JSFile := none
deriving DecidableEq

/-- Line 42 of the dispatcher: the readiness probe `{ type: 'init' }`. -/
def initMsg : MainToWorkerMsg := { type := some "init" }

/-- Lines 123-129 of the dispatcher: the URL task message. -/
def ingestUrlMsg (url : String) (ts : Nat) : MainToWorkerMsg :=
  { type := some "ingest_url", payload := some (TaskPayload.urlPayload url ts) }

/-- Lines 161-169 of the dispatcher: the PDF task message. -/
def ingestPdfMsg (fileName : String) (fileSize : Nat) (fileData : List Nat) (ts : Nat) :
    MainToWorkerMsg :=
  { type := some "ingest_pdf"
    payload := some (TaskPayload.pdfPayload fileName fileSize fileData ts) }

/-- The invalid-operation reply of lines 14-18 of the worker; note that
it sets no `type` field. -/
def invalidOpMsg (op : Option String) : WorkerMsg :=
  { success := some false
    error := some "Invalid operation or missing data"
    operation := some (jsStrOptOr op "unknown") }

/-- The worker's message listener (lines 5-27): destructure
`{operation, url, file}` from the event data; dispatch on
`operation === 'html' && url` then `operation === 'pdf' && file`
(JavaScript truthiness: a string is truthy when non-empty, an object
always); otherwise post the invalid-operation failure.  `fetchEnv`
supplies the network's answer per URL, `readErr` a possible
`arrayBuffer()` rejection, `now` the clock. -/
def workerOnMessage (fetchEnv : String → FetchOutcome) (readErr : Option String)
    (now : String) (m : MainToWorkerMsg) : WorkerMsg :=
  match m.operation, m.url, m.file with
  | some "html", some u, _ =>
    if u ≠ "" then handleHtmlFetch u (fetchEnv u) now else invalidOpMsg m.operation
  | some "pdf", _, some f => handlePdfParse f readErr now
  | op, _, _ => invalidOpMsg op

/-- The `error` listener of lines 178-184 of the worker. -/
def workerErrorMsg (msg : String) : WorkerMsg :=
  { success := some false
    error := some ("Worker error: " ++ msg)
    operation := some "error" }

/-- The `unhandledrejection` listener of lines 187-194 of the worker. -/
def workerRejectionMsg (reason : String) : WorkerMsg :=
  { success := some false
    error := some ("Unhandled promise rejection: " ++ reason)
    operation := some "error" }

/-- The messages the worker can ever post: one reply per inbound
message (the listener of lines 5-27, whose two extraction routines catch
their own errors and post exactly one result), plus the global `error`
and `unhandledrejection` listeners.  These are all the `postMessage`
call sites in `ingestWorker.js`. -/
inductive WorkerEmittable : WorkerMsg → Prop
  | fromMessage (fetchEnv : String → FetchOutcome) (readErr : Option String)
      (now : String) (m : MainToWorkerMsg) :
      WorkerEmittable (workerOnMessage fetchEnv readErr now m)
  | fromErrorEvent (msg : String) : WorkerEmittable (workerErrorMsg msg)
  | fromRejection (reason : String) : WorkerEmittable (workerRejectionMsg reason)

/-! ## Dispatcher (class `Ingest`)

The dispatcher's mutable state is its readiness flag and its three
callback slots; only whether a slot is populated matters to the control
flow, so each slot is modelled by a `Bool`.  The submission methods
`ingestURL` / `ingestPDF` read the state but never write it, so they are
modelled as functions of the state; the errors they `throw` are the
`Except.error` branch, and the message they post (plus the acknowledgment
they resolve with) is the `Except.ok` branch, so an error excludes any
post by construction, mirroring the straight-line control flow. -/

/-- The dispatcher's mutable state (constructor lines 8-14). -/
structure IngestState where
  isWorkerReady : Bool
  hasOnProgress : Bool
  hasOnComplete : Bool
  hasOnError : Bool
deriving DecidableEq

/-- The state right after construction: not ready, no callbacks. -/
def initialState : IngestState :=
  { isWorkerReady := false, hasOnProgress := false, hasOnComplete := false
    hasOnError := false }

/-- A callback invocation observed by the host application, carrying the
`payload` field of the worker message that triggered it. -/
inductive CallbackCall where
  | onProgress (p : Option ExtractData)
  | onComplete (p : Option ExtractData)
  | onError (p : Option ExtractData)
deriving DecidableEq

/-- Lines 95-99 of the dispatcher (`triggerCallback`): invoke the
callback only when its slot is populated. -/
def triggerCalls (slotSet : Bool) (c : CallbackCall) : List CallbackCall :=
  if slotSet then [c] else []

/-- Lines 57-81 of the dispatcher (`handleWorkerMessage`): destructure
`{type, payload}` from the worker message and switch on `type`; a
message whose `type` matches no case reaches the `default` branch, which
only logs a warning — the state is unchanged and no callback runs. -/
def handleWorkerMessage (s : IngestState) (d : WorkerMsg) :
    IngestState × List CallbackCall :=
  match d.type with
  | some "worker_ready" => ({ s with isWorkerReady := true }, [])
  | some "progress" => (s, triggerCalls s.hasOnProgress (CallbackCall.onProgress d.payload))
  | some "ingest_complete" =>
    (s, triggerCalls s.hasOnComplete (CallbackCall.onComplete d.payload))
  | some "error" => (s, triggerCalls s.hasOnError (CallbackCall.onError d.payload))
  | _ => (s, [])

/-- Lines 86-90 of the dispatcher (`setCallbacks`): each provided channel
replaces the slot (so a populated argument leaves the slot populated);
channels not provided are unchanged. -/
def setCallbacks (s : IngestState) (p c e : Bool) : IngestState :=
  { s with
    hasOnProgress := s.hasOnProgress || p
    hasOnComplete := s.hasOnComplete || c
    hasOnError := s.hasOnError || e }

/-- Lines 199-210 of the dispatcher (`destroy`): terminate the worker,
reset readiness, clear all callbacks. -/
def destroyState (_ : IngestState) : IngestState :=
  { isWorkerReady := false, hasOnProgress := false, hasOnComplete := false
    hasOnError := false }

/-- A JavaScript value passed as the argument of a submission method. -/
inductive JSValue where
  | str (s : String)
  | fileV (f : JSFile)
  | nullV
  | undefinedV
  | numV (n : Int)
  | boolV (b : Bool)
  | objV
deriving DecidableEq

/-- The not-ready error text thrown on lines 108 and 145. -/
def notReadyMsg : String := "Worker not ready. Please wait for initialization."

/-- The acknowledgment object resolved by `ingestURL` (lines 132-135). -/
structure UrlAck where
  status : String
  url : String
deriving DecidableEq

/-- The acknowledgment object resolved by `ingestPDF` (lines 171-175). -/
structure PdfAck where
  status : String
  fileName : String
  fileSize : Nat
deriving DecidableEq

/-- Lines 106-136 of the dispatcher (`ingestURL`).  `urlOk` stands for
the host's WHATWG URL parser: `urlOk u = true` exactly when
`new URL(u)` succeeds, i.e. when `u` is a syntactically well-formed
absolute URL (in particular `urlOk "" = false`).  Checks run in source
order: readiness, then `!url || typeof url !== 'string'` (an empty
string is falsy), then URL syntax; only then is the task message posted
and the acknowledgment returned.  `nowMs` is `Date.now()`. -/
def ingestURL (urlOk : String → Bool) (s : IngestState) (v : JSValue) (nowMs : Nat) :
    Except String (MainToWorkerMsg × UrlAck) :=
  if !s.isWorkerReady then Except.error notReadyMsg
  else
    match v with
    | JSValue.str u =>
      if u = "" then Except.error "Invalid URL provided"
      else if !urlOk u then Except.error "Invalid URL format"
      else Except.ok (ingestUrlMsg u nowMs, { status := "processing", url := u })
    | _ => Except.error "Invalid URL provided"

/-- Lines 143-180 of the dispatcher (`ingestPDF`).  Checks run in source
order: readiness, then `!file || !(file instanceof File)`, then the
declared MIME type; only then is `file.arrayBuffer()` awaited (`readErr`
is its rejection, if any — its failure is rethrown as a read error) and
the task message posted.  The second component records whether the
`arrayBuffer()` read was reached, i.e. whether the file's byte content
was read. -/
def ingestPDF (s : IngestState) (v : JSValue) (readErr : Option String) (nowMs : Nat) :
    Except String (MainToWorkerMsg × PdfAck) × Bool :=
  if !s.isWorkerReady then (Except.error notReadyMsg, false)
  else
    match v with
    | JSValue.fileV f =>
      if f.mimeType ≠ "application/pdf" then (Except.error "File must be a PDF", false)
      else
        match readErr with
        | some e => (Except.error ("Failed to read PDF file: " ++ e), true)
        | none =>
          (Except.ok
            (ingestPdfMsg f.name f.size f.bytes nowMs,
             { status := "processing", fileName := f.name, fileSize := f.size }),
           true)
    | _ => (Except.error "Invalid file provided", false)

/-- The dispatcher states reachable in the composed dispatcher-worker
system: the initial state, stepped by handling any message the worker
can emit, by callback registration, or by `destroy`.  The submission
methods never write the state, so they induce no transition. -/
inductive Reachable : IngestState → Prop
  | init : Reachable initialState
  | workerReply (s : IngestState) (m : WorkerMsg) :
      WorkerEmittable m → Reachable s → Reachable (handleWorkerMessage s m).1
  | registerCB (s : IngestState) (p c e : Bool) :
      Reachable s → Reachable (setCallbacks s p c e)
  | shutdown (s : IngestState) : Reachable s → Reachable (destroyState s)

/-! ## Spec-side renderings

Definitions written from the specification's words, to be compared with
the code-derived definitions above. -/

/-- One step of the spec's whitespace collapsing, consuming the input
from the right: a whitespace character merges into an already-started
run (the accumulated text then begins with the run's single space) and
otherwise opens a new run. -/
def specCollapseStep (c : Char) (acc : List Char) : List Char :=
  if jsWhitespace c then
    if acc.head? = some ' ' then acc else ' ' :: acc
  else c :: acc

/-- Spec reading of the cleanup: every run of consecutive whitespace
collapsed to a single space, rendered as a right fold. -/
def specCollapse (l : List Char) : List Char :=
  l.foldr specCollapseStep []

/-- Spec reading of the body-text probe: try `main`, then `article`,
then `.content`, then `#content`, then `.post-content`, then
`.entry-content`, then `body`, in that fixed order, taking the text of
the first selector that matches an element and the empty string when
none matches. -/
def specBodyTextRaw (doc : HtmlDoc) : List Char :=
  match doc.queryFirst "main" with
  | some e => elementText e
  | none =>
  match doc.queryFirst "article" with
  | some e => elementText e
  | none =>
  match doc.queryFirst ".content" with
  | some e => elementText e
  | none =>
  match doc.queryFirst "#content" with
  | some e => elementText e
  | none =>
  match doc.queryFirst ".post-content" with
  | some e => elementText e
  | none =>
  match doc.queryFirst ".entry-content" with
  | some e => elementText e
  | none =>
  match doc.queryFirst "body" with
  | some e => elementText e
  | none => []

/-- Spec reading of the emitted body text (before transport truncation):
the probed text with whitespace runs collapsed and the ends trimmed. -/
def specBodyText (doc : HtmlDoc) : List Char :=
  jsTrim (specCollapse (specBodyTextRaw doc))

/-! ## Helper lemmas -/

theorem jsWhitespace_space : jsWhitespace ' ' = true := rfl

theorem specCollapseStep_ws (c : Char) (hc : jsWhitespace c = true) (acc : List Char) :
    specCollapseStep c acc = specCollapseStep ' ' acc := by
  simp [specCollapseStep, hc, jsWhitespace_space]

theorem specCollapseStep_ws_head (acc : List Char) :
    (specCollapseStep ' ' acc).head? = some ' ' := by
  unfold specCollapseStep
  by_cases h : acc.head? = some ' ' <;> simp [h, jsWhitespace_space]

theorem specCollapseStep_space_absorb (acc : List Char) (h : acc.head? = some ' ') :
    specCollapseStep ' ' acc = acc := by
  simp [specCollapseStep, jsWhitespace_space, h]

/-- The worker's collapsing pass agrees with the spec's right fold, both
from the not-inside-a-run state and from the inside-a-run state. -/
theorem collapseAux_eq_specCollapse (l : List Char) :
    collapseAux false l = specCollapse l ∧
    ' ' :: collapseAux true l = specCollapse (' ' :: l) := by
  induction l with
  | nil =>
    refine ⟨rfl, ?_⟩
    simp [collapseAux, specCollapse, specCollapseStep, jsWhitespace]
  | cons c cs ih =>
    obtain ⟨ih1, ih2⟩ := ih
    by_cases hc : jsWhitespace c = true
    · constructor
      · show collapseAux false (c :: cs) = specCollapse (c :: cs)
        have h1 : collapseAux false (c :: cs) = ' ' :: collapseAux true cs := by
          simp [collapseAux, hc]
        have h2 : specCollapse (c :: cs) = specCollapse (' ' :: cs) := by
          show (c :: cs).foldr specCollapseStep [] = (' ' :: cs).foldr specCollapseStep []
          simp only [List.foldr_cons]
          exact specCollapseStep_ws c hc _
        rw [h1, h2, ← ih2]
      · show ' ' :: collapseAux true (c :: cs) = specCollapse (' ' :: c :: cs)
        have h1 : collapseAux true (c :: cs) = collapseAux true cs := by
          simp [collapseAux, hc]
        have h2 : specCollapse (' ' :: c :: cs) = specCollapse (' ' :: cs) := by
          show specCollapseStep ' ' ((c :: cs).foldr specCollapseStep [])
              = specCollapseStep ' ' (cs.foldr specCollapseStep [])
          simp only [List.foldr_cons]
          rw [specCollapseStep_ws c hc]
          exact specCollapseStep_space_absorb _ (specCollapseStep_ws_head _)
        rw [h1, h2, ← ih2]
    · have hc' : jsWhitespace c = false := by
        cases h : jsWhitespace c
        · rfl
        · exact absurd h hc
      have hcs : c ≠ ' ' := by
        intro h
        rw [h] at hc'
        simp [jsWhitespace] at hc'
      constructor
      · show collapseAux false (c :: cs) = specCollapse (c :: cs)
        have h1 : collapseAux false (c :: cs) = c :: collapseAux false cs := by
          simp [collapseAux, hc']
        have h2 : specCollapse (c :: cs) = c :: specCollapse cs := by
          show specCollapseStep c (cs.foldr specCollapseStep []) = c :: cs.foldr specCollapseStep []
          simp [specCollapseStep, hc']
        rw [h1, h2, ih1]
      · show ' ' :: collapseAux true (c :: cs) = specCollapse (' ' :: c :: cs)
        have h1 : collapseAux true (c :: cs) = c :: collapseAux false cs := by
          simp [collapseAux, hc']
        have h2 : specCollapse (' ' :: c :: cs) = ' ' :: c :: specCollapse cs := by
          show specCollapseStep ' ' (specCollapseStep c (cs.foldr specCollapseStep []))
              = ' ' :: c :: cs.foldr specCollapseStep []
          have hstep : specCollapseStep c (cs.foldr specCollapseStep [])
              = c :: cs.foldr specCollapseStep [] := by
            simp [specCollapseStep, hc']
          rw [hstep]
          simp [specCollapseStep, jsWhitespace, hcs]
        rw [h1, h2, ih1]

/-- The worker's cleanup equals trimming the spec's collapse. -/
theorem cleanText_eq_spec (l : List Char) :
    cleanText l = jsTrim (specCollapse l) := by
  rw [cleanText, collapseWS, (collapseAux_eq_specCollapse l).1]

/-- The worker's selector loop over `contentSelectors` computes the
spec's nested first-match probe. -/
theorem rawBodyText_eq_spec (doc : HtmlDoc) :
    rawBodyText doc = specBodyTextRaw doc := rfl

theorem htmlFailureMsg_type_none (url msg : String) : (htmlFailureMsg url msg).type = none := rfl

theorem htmlSuccessMsg_type_none (url : String) (doc : HtmlDoc) (now : String) :
    (htmlSuccessMsg url doc now).type = none := rfl

theorem handleHtmlFetch_type_none (url : String) (f : FetchOutcome) (now : String) :
    (handleHtmlFetch url f now).type = none := by
  cases f with
  | networkError msg => rfl
  | response status statusText doc =>
    show (if responseOk status = true then htmlSuccessMsg url doc now
        else htmlFailureMsg url ("HTTP " ++ toString status ++ ": " ++ statusText)).type = none
    split
    · exact htmlSuccessMsg_type_none ..
    · exact htmlFailureMsg_type_none ..

theorem pdfFailureMsg_type_none (f : JSFile) (msg : String) :
    (pdfFailureMsg f msg).type = none := rfl

theorem pdfSuccessMsg_type_none (f : JSFile) (now : String) :
    (pdfSuccessMsg f now).type = none := rfl

theorem handlePdfParse_type_none (f : JSFile) (readErr : Option String) (now : String) :
    (handlePdfParse f readErr now).type = none := by
  unfold handlePdfParse
  split
  · exact pdfFailureMsg_type_none ..
  · split
    · exact pdfFailureMsg_type_none ..
    · split
      · exact pdfFailureMsg_type_none ..
      · exact pdfSuccessMsg_type_none ..

theorem invalidOpMsg_type_none (op : Option String) : (invalidOpMsg op).type = none := rfl

theorem workerOnMessage_type_none (fetchEnv : String → FetchOutcome) (readErr : Option String)
    (now : String) (m : MainToWorkerMsg) :
    (workerOnMessage fetchEnv readErr now m).type = none := by
  unfold workerOnMessage
  split
  · split
    · exact handleHtmlFetch_type_none ..
    · exact invalidOpMsg_type_none ..
  · exact handlePdfParse_type_none ..
  · exact invalidOpMsg_type_none ..

/-- No `postMessage` call site of the worker sets a `type` field. -/
theorem emittable_type_none (m : WorkerMsg) (h : WorkerEmittable m) : m.type = none := by
  cases h with
  | fromMessage fetchEnv readErr now m' => exact workerOnMessage_type_none ..
  | fromErrorEvent msg => rfl
  | fromRejection reason => rfl

/-- A worker message without a `type` field falls through every case of
the dispatcher's switch: no state change, no callback. -/
theorem handleWorkerMessage_of_type_none (s : IngestState) (d : WorkerMsg)
    (h : d.type = none) : handleWorkerMessage s d = (s, []) := by
  unfold handleWorkerMessage
  rw [h]

/-- The readiness flag is false in every reachable dispatcher state. -/
theorem reachable_not_ready (s : IngestState) (h : Reachable s) :
    s.isWorkerReady = false := by
  induction h with
  | init => rfl
  | workerReply s' m hm _ ih =>
    rw [handleWorkerMessage_of_type_none s' m (emittable_type_none m hm)]
    exact ih
  | registerCB s' p c e _ ih => simpa [setCallbacks] using ih
  | shutdown s' _ _ => rfl

theorem ingestURL_not_ready (urlOk : String → Bool) (s : IngestState)
    (hs : s.isWorkerReady = false) (v : JSValue) (nowMs : Nat) :
    ingestURL urlOk s v nowMs = Except.error notReadyMsg := by
  unfold ingestURL
  rw [hs]
  rfl

theorem ingestPDF_not_ready (s : IngestState) (hs : s.isWorkerReady = false)
    (v : JSValue) (readErr : Option String) (nowMs : Nat) :
    ingestPDF s v readErr nowMs = (Except.error notReadyMsg, false) := by
  unfold ingestPDF
  rw [hs]
  rfl

theorem collapseAux_false_of_no_ws (l : List Char) (h : ∀ c ∈ l, jsWhitespace c = false) :
    collapseAux false l = l := by
  induction l with
  | nil => rfl
  | cons c cs ih =>
    have hc : jsWhitespace c = false := h c (List.mem_cons_self c cs)
    have hcs : ∀ x ∈ cs, jsWhitespace x = false := fun x hx => h x (List.mem_cons_of_mem c hx)
    simp [collapseAux, hc, ih hcs]

theorem dropWhile_of_no_ws (l : List Char) (h : ∀ c ∈ l, jsWhitespace c = false) :
    l.dropWhile jsWhitespace = l := by
  cases l with
  | nil => rfl
  | cons c cs =>
    have hc : jsWhitespace c = false := h c (List.mem_cons_self c cs)
    simp [List.dropWhile, hc]

theorem jsTrim_of_no_ws (l : List Char) (h : ∀ c ∈ l, jsWhitespace c = false) :
    jsTrim l = l := by
  unfold jsTrim
  rw [dropWhile_of_no_ws l h]
  rw [dropWhile_of_no_ws l.reverse (fun c hc => h c (List.mem_reverse.mp hc))]
  exact List.reverse_reverse l

/-- Text without whitespace passes through the cleanup unchanged. -/
theorem cleanText_of_no_ws (l : List Char) (h : ∀ c ∈ l, jsWhitespace c = false) :
    cleanText l = l := by
  unfold cleanText collapseWS
  rw [collapseAux_false_of_no_ws l h]
  exact jsTrim_of_no_ws l h

theorem cleanText_replicate_a (n : Nat) :
    cleanText (List.replicate n 'a') = List.replicate n 'a' := by
  refine cleanText_of_no_ws _ fun c hc => ?_
  rw [List.eq_of_mem_replicate hc]
  rfl

theorem jsOrList_of_ne_nil (a b : List Char) (h : a ≠ []) : jsOrList a b = a := by
  cases a with
  | nil => exact absurd rfl h
  | cons c cs => rfl

theorem filter_replicate_of_true {α : Type} (p : α → Bool) (a : α) (h : p a = true) (n : Nat) :
    (List.replicate n a).filter p = List.replicate n a := by
  induction n with
  | zero => rfl
  | succ k ih => simp [List.replicate_succ, List.filter_cons, h, ih]

/-- The HTML extract carried by a worker message, when it carries one. -/
def htmlDataOf (m : WorkerMsg) : Option HtmlData :=
  match m.data with
  | some (ExtractData.htmlExtract d) => some d
  | _ => none

/-! ## Claims -/

/-- C1: every task the dispatcher forwards to the worker is a message
whose `type` is 'ingest_url' or 'ingest_pdf' with the data nested under
`payload`; the worker's listener reads `operation`, `url` and `file`
from the top level, finds them absent, takes its invalid-operation
branch and replies with a failure message that has no `type` field
(operation 'unknown'); that reply matches no case of the dispatcher's
`handleWorkerMessage`, so the state is unchanged and no callback — in
particular `onComplete` — is ever invoked for a submitted task. -/
theorem C1_tasks_never_complete (u fn now : String) (fs ts : Nat) (fd : List Nat)
    (fetchEnv : String → FetchOutcome) (readErr : Option String) (m : MainToWorkerMsg)
    (hm : m = ingestUrlMsg u ts ∨ m = ingestPdfMsg fn fs fd ts) :
    workerOnMessage fetchEnv readErr now m = invalidOpMsg none ∧
    (workerOnMessage fetchEnv readErr now m).type = none ∧
    (workerOnMessage fetchEnv readErr now m).success = some false ∧
    (workerOnMessage fetchEnv readErr now m).error
        = some "Invalid operation or missing data" ∧
    (workerOnMessage fetchEnv readErr now m).operation = some "unknown" ∧
    ∀ s : IngestState,
      handleWorkerMessage s (workerOnMessage fetchEnv readErr now m) = (s, []) := by
  have hw : workerOnMessage fetchEnv readErr now m = invalidOpMsg none := by
    rcases hm with h | h <;> subst h <;> rfl
  refine ⟨hw, ?_, ?_, ?_, ?_, ?_⟩ <;> rw [hw]
  · rfl
  · rfl
  · rfl
  · rfl
  · intro s
    exact handleWorkerMessage_of_type_none s (invalidOpMsg none) rfl

/-- Concrete instance of C1: a URL task message, an offline network,
the pristine dispatcher state. -/
theorem C1_tasks_never_complete_witness :
    (ingestUrlMsg "https://example.com" 3 = ingestUrlMsg "https://example.com" 3 ∨
      ingestUrlMsg "https://example.com" 3 = ingestPdfMsg "f.pdf" 4 [1, 2] 3) ∧
    workerOnMessage (fun _ => FetchOutcome.networkError "offline") none "t"
        (ingestUrlMsg "https://example.com" 3) = invalidOpMsg none ∧
    (workerOnMessage (fun _ => FetchOutcome.networkError "offline") none "t"
        (ingestUrlMsg "https://example.com" 3)).type = none ∧
    handleWorkerMessage initialState
        (workerOnMessage (fun _ => FetchOutcome.networkError "offline") none "t"
          (ingestUrlMsg "https://example.com" 3)) = (initialState, []) := by
  have h := C1_tasks_never_complete "https://example.com" "f.pdf" "t" 4 3 [1, 2]
    (fun _ => FetchOutcome.networkError "offline") none
    (ingestUrlMsg "https://example.com" 3) (Or.inl rfl)
  exact ⟨Or.inl rfl, h.1, h.2.1, h.2.2.2.2.2 initialState⟩

/-- C2: no `postMessage` site of the worker emits a message of type
'worker_ready' (every emittable message has no `type` field at all), and
`handleWorkerMessage` is the only writer of the readiness flag; hence in
every reachable state of the composed dispatcher-worker system the flag
is false, and every call to `ingestURL` or `ingestPDF` throws the
not-ready error. -/
theorem C2_worker_never_ready :
    (∀ m : WorkerMsg, WorkerEmittable m → m.type ≠ some "worker_ready") ∧
    ∀ s : IngestState, Reachable s →
      s.isWorkerReady = false ∧
      (∀ urlOk v nowMs, ingestURL urlOk s v nowMs = Except.error notReadyMsg) ∧
      (∀ v readErr nowMs, ingestPDF s v readErr nowMs = (Except.error notReadyMsg, false)) := by
  constructor
  · intro m hm
    rw [emittable_type_none m hm]
    exact fun h => Option.noConfusion h
  · intro s hs
    have hflag := reachable_not_ready s hs
    exact ⟨hflag,
      fun urlOk v nowMs => ingestURL_not_ready urlOk s hflag v nowMs,
      fun v readErr nowMs => ingestPDF_not_ready s hflag v readErr nowMs⟩

/-- Concrete instance of C2: the reply to the readiness probe itself is
not 'worker_ready', and in the initial state both submissions throw. -/
theorem C2_worker_never_ready_witness :
    (workerOnMessage (fun _ => FetchOutcome.networkError "offline") none "t" initMsg).type
        ≠ some "worker_ready" ∧
    initialState.isWorkerReady = false ∧
    ingestURL (fun _ => true) initialState (JSValue.str "https://example.com") 0
        = Except.error notReadyMsg ∧
    ingestPDF initialState (JSValue.str "x") none 0 = (Except.error notReadyMsg, false) := by
  refine ⟨C2_worker_never_ready.1 _
    (WorkerEmittable.fromMessage (fun _ => FetchOutcome.networkError "offline") none "t" initMsg),
    ?_, ?_, ?_⟩
  · exact (C2_worker_never_ready.2 initialState Reachable.init).1
  · exact (C2_worker_never_ready.2 initialState Reachable.init).2.1 _ _ _
  · exact (C2_worker_never_ready.2 initialState Reachable.init).2.2 _ _ _

/-- C4: any submission made while the readiness flag is false throws the
not-ready error to the caller (the `Except.error` branch, reached before
the `postMessage` call, so no message is posted and the task is not
silently dropped); for `ingestPDF` the second component records that the
byte content was not read either. -/
theorem C4_not_ready_rejection (s : IngestState) (hs : s.isWorkerReady = false) :
    (∀ urlOk v nowMs, ingestURL urlOk s v nowMs = Except.error notReadyMsg) ∧
    (∀ v readErr nowMs, ingestPDF s v readErr nowMs = (Except.error notReadyMsg, false)) :=
  ⟨fun urlOk v nowMs => ingestURL_not_ready urlOk s hs v nowMs,
   fun v readErr nowMs => ingestPDF_not_ready s hs v readErr nowMs⟩

/-- Concrete instance of C4 in the initial (never-ready) state. -/
theorem C4_not_ready_rejection_witness :
    initialState.isWorkerReady = false ∧
    ingestURL (fun _ => true) initialState (JSValue.str "https://example.com") 5
        = Except.error notReadyMsg ∧
    ingestPDF initialState
        (JSValue.fileV
          { name := "a.pdf", mimeType := "application/pdf", size := 1, lastModified := 0
            bytes := [37] })
        none 5
        = (Except.error notReadyMsg, false) :=
  ⟨rfl, (C4_not_ready_rejection initialState rfl).1 _ _ _,
   (C4_not_ready_rejection initialState rfl).2 _ _ _⟩

/-- A non-PDF-typed file whose bytes do not start with `%PDF`. -/
def c3file : JSFile :=
  { name := "notes.txt", mimeType := "text/plain", size := 4, lastModified := 0
    bytes := [65, 66, 67, 68] }

/-- C3 is false as stated: `handlePdfParse` checks the declared MIME
type before the signature (line 118 before line 141), so this file —
whose first four bytes are not `%PDF` — fails with the MIME-type
message, not the signature-validation message. -/
theorem C3_counterexample :
    pdfSigOk c3file.bytes = false ∧
    (handlePdfParse c3file none "t").success = some false ∧
    (handlePdfParse c3file none "t").error
        = some "Failed to parse PDF: File is not a PDF document" ∧
    ¬ (handlePdfParse c3file none "t").error
        = some "Failed to parse PDF: Invalid PDF file format" := by
  refine ⟨by decide, rfl, by decide, by decide⟩

/-- C3 (amended): a file payload whose first four bytes are not `%PDF`
always yields a PDF-operation failure, but the error is the
signature-validation message only when the declared MIME type is
'application/pdf'; any other declared MIME type fails earlier with the
MIME-type message. -/
theorem C3_amended_pdf_validation (f : JSFile) (now : String)
    (hsig : pdfSigOk f.bytes = false) :
    (handlePdfParse f none now).success = some false ∧
    (handlePdfParse f none now).data = none ∧
    (handlePdfParse f none now).error =
      some (if f.mimeType = "application/pdf"
        then "Failed to parse PDF: Invalid PDF file format"
        else "Failed to parse PDF: File is not a PDF document") := by
  unfold handlePdfParse
  by_cases h : f.mimeType = "application/pdf"
  · rw [if_neg (not_not_intro h), if_pos h]
    show ((if !pdfSigOk f.bytes then pdfFailureMsg f "Invalid PDF file format"
        else pdfSuccessMsg f now).success = some false) ∧ _
    rw [hsig]
    exact ⟨rfl, rfl, rfl⟩
  · rw [if_pos h, if_neg h]
    exact ⟨rfl, rfl, rfl⟩

/-- Concrete instance of the amended C3: a file declared as
'application/pdf' whose bytes do not start with `%PDF` gets the
signature-validation failure. -/
theorem C3_amended_pdf_validation_witness :
    pdfSigOk
      (JSFile.mk "broken.pdf" "application/pdf" 4 0 [65, 66, 67, 68]).bytes = false ∧
    ((handlePdfParse (JSFile.mk "broken.pdf" "application/pdf" 4 0 [65, 66, 67, 68])
        none "t").success = some false ∧
     (handlePdfParse (JSFile.mk "broken.pdf" "application/pdf" 4 0 [65, 66, 67, 68])
        none "t").data = none ∧
     (handlePdfParse (JSFile.mk "broken.pdf" "application/pdf" 4 0 [65, 66, 67, 68])
        none "t").error =
       some (if (JSFile.mk "broken.pdf" "application/pdf" 4 0 [65, 66, 67, 68]).mimeType
            = "application/pdf"
         then "Failed to parse PDF: Invalid PDF file format"
         else "Failed to parse PDF: File is not a PDF document")) :=
  ⟨by decide,
   C3_amended_pdf_validation (JSFile.mk "broken.pdf" "application/pdf" 4 0 [65, 66, 67, 68])
     "t" (by decide)⟩

/-- The dispatcher state after the readiness handshake would have
succeeded (hypothetical: flag set, no callbacks). -/
def readyState : IngestState :=
  { isWorkerReady := true, hasOnProgress := false, hasOnComplete := false
    hasOnError := false }

/-- C5: with the worker ready, a string accepted by URL-syntax
validation (`urlOk` stands for the WHATWG parser behind `new URL`, so
`urlOk "" = false`) is accepted and the task message is posted with the
processing acknowledgment returned; a string failing validation, or an
argument that is not a string, raises an invalid-input error — the
`Except.error` branch, reached before the `postMessage` call, so no
message is sent. -/
theorem C5_url_gate (urlOk : String → Bool) (hempty : urlOk "" = false)
    (s : IngestState) (hready : s.isWorkerReady = true) (nowMs : Nat) :
    (∀ u, urlOk u = true →
      ingestURL urlOk s (JSValue.str u) nowMs
        = Except.ok (ingestUrlMsg u nowMs, { status := "processing", url := u })) ∧
    (∀ u, urlOk u = false →
      ingestURL urlOk s (JSValue.str u) nowMs = Except.error "Invalid URL provided" ∨
      ingestURL urlOk s (JSValue.str u) nowMs = Except.error "Invalid URL format") ∧
    (∀ v : JSValue, (∀ u, v ≠ JSValue.str u) →
      ingestURL urlOk s v nowMs = Except.error "Invalid URL provided") := by
  have hstep : ∀ u : String,
      ingestURL urlOk s (JSValue.str u) nowMs
        = if u = "" then Except.error "Invalid URL provided"
          else if !urlOk u then Except.error "Invalid URL format"
          else Except.ok (ingestUrlMsg u nowMs, { status := "processing", url := u }) := by
    intro u
    unfold ingestURL
    rw [hready]
    rfl
  refine ⟨?_, ?_, ?_⟩
  · intro u hu
    have hne : ¬ u = "" := by
      intro h
      rw [h, hempty] at hu
      cases hu
    rw [hstep u, if_neg hne, hu]
    rfl
  · intro u hu
    rw [hstep u]
    by_cases h : u = ""
    · left
      rw [if_pos h]
    · right
      rw [if_neg h, hu]
      rfl
  · intro v hv
    unfold ingestURL
    rw [hready]
    cases v with
    | str u => exact absurd rfl (hv u)
    | fileV f => rfl
    | nullV => rfl
    | undefinedV => rfl
    | numV n => rfl
    | boolV b => rfl
    | objV => rfl

/-- Concrete instance of C5: one accepted well-formed URL, one rejected
string, one non-string argument, against a one-URL validity oracle. -/
theorem C5_url_gate_witness :
    (fun u => u == "https://example.com") "" = false ∧
    readyState.isWorkerReady = true ∧
    (fun u => u == "https://example.com") "https://example.com" = true ∧
    ingestURL (fun u => u == "https://example.com") readyState
        (JSValue.str "https://example.com") 7
      = Except.ok (ingestUrlMsg "https://example.com" 7,
          { status := "processing", url := "https://example.com" }) ∧
    (ingestURL (fun u => u == "https://example.com") readyState
        (JSValue.str "not a url") 7 = Except.error "Invalid URL provided" ∨
     ingestURL (fun u => u == "https://example.com") readyState
        (JSValue.str "not a url") 7 = Except.error "Invalid URL format") ∧
    ingestURL (fun u => u == "https://example.com") readyState (JSValue.numV 3) 7
      = Except.error "Invalid URL provided" := by
  refine ⟨rfl, rfl, by decide, ?_, ?_, ?_⟩
  · exact (C5_url_gate _ rfl readyState rfl 7).1 _ (by decide)
  · exact (C5_url_gate _ rfl readyState rfl 7).2.1 _ (by decide)
  · exact (C5_url_gate _ rfl readyState rfl 7).2.2 _ (fun u h => JSValue.noConfusion h)

/-- C6: with the worker ready, a file whose declared MIME type is not
'application/pdf' is rejected synchronously with the invalid-input
error; the flag component is false — the `arrayBuffer()` read was never
reached, so the byte content is never read — and the `Except.error`
branch carries no task message, so nothing is sent to the worker. -/
theorem C6_mime_gate (s : IngestState) (hready : s.isWorkerReady = true) (f : JSFile)
    (hmime : f.mimeType ≠ "application/pdf") (readErr : Option String) (nowMs : Nat) :
    ingestPDF s (JSValue.fileV f) readErr nowMs
      = (Except.error "File must be a PDF", false) := by
  unfold ingestPDF
  rw [hready]
  show (if f.mimeType ≠ "application/pdf" then (Except.error "File must be a PDF", false)
    else _) = _
  rw [if_pos hmime]

/-- Concrete instance of C6: a plain-text file is rejected without its
bytes being read. -/
theorem C6_mime_gate_witness :
    readyState.isWorkerReady = true ∧
    (JSFile.mk "notes.txt" "text/plain" 4 0 [37, 80, 68, 70]).mimeType
        ≠ "application/pdf" ∧
    ingestPDF readyState
        (JSValue.fileV (JSFile.mk "notes.txt" "text/plain" 4 0 [37, 80, 68, 70])) none 9
      = (Except.error "File must be a PDF", false) :=
  ⟨rfl, by decide,
   C6_mime_gate readyState rfl (JSFile.mk "notes.txt" "text/plain" 4 0 [37, 80, 68, 70])
     (by decide) none 9⟩

theorem handleHtmlFetch_ok (url : String) (status : Nat) (statusText : String)
    (doc : HtmlDoc) (now : String) (hok : responseOk status = true) :
    handleHtmlFetch url (FetchOutcome.response status statusText doc) now
      = htmlSuccessMsg url doc now := by
  show (if responseOk status = true then htmlSuccessMsg url doc now
      else htmlFailureMsg url ("HTTP " ++ toString status ++ ": " ++ statusText))
    = htmlSuccessMsg url doc now
  rw [if_pos hok]

theorem htmlErrPrefix_assoc_a (x y : String) :
    "Failed to fetch/parse HTML: " ++ ("HTTP " ++ x ++ ": " ++ y)
      = "Failed to fetch/parse HTML: HTTP " ++ x ++ (": " ++ y) := by
  simp only [← String.append_assoc]
  rfl

theorem htmlErrPrefix_assoc_b (x y : String) :
    "Failed to fetch/parse HTML: " ++ ("HTTP " ++ x ++ ": " ++ y)
      = ("Failed to fetch/parse HTML: HTTP " ++ x ++ ": ") ++ y := by
  simp only [← String.append_assoc]
  rfl

theorem handleHtmlFetch_bad (url : String) (status : Nat) (statusText : String)
    (doc : HtmlDoc) (now : String) (hbad : responseOk status = false) :
    handleHtmlFetch url (FetchOutcome.response status statusText doc) now
      = htmlFailureMsg url ("HTTP " ++ toString status ++ ": " ++ statusText) := by
  show (if responseOk status = true then htmlSuccessMsg url doc now
      else htmlFailureMsg url ("HTTP " ++ toString status ++ ": " ++ statusText)) = _
  rw [hbad]
  rfl

/-- C7: when the response is 2xx and the cleaned body text is longer
than 10,000 characters, the success result's `bodyText` field is exactly
the first 10,000 characters of the cleaned text (so its length is
10,000) and `contentLength` is the length of the cleaned text before
truncation. -/
theorem C7_body_truncation (url : String) (status : Nat) (statusText : String)
    (doc : HtmlDoc) (now : String) (hok : responseOk status = true)
    (hlen : 10000 < (cleanText (rawBodyText doc)).length) :
    (handleHtmlFetch url (FetchOutcome.response status statusText doc) now).success
        = some true ∧
    (htmlDataOf (handleHtmlFetch url (FetchOutcome.response status statusText doc) now)).map
        HtmlData.bodyText = some ((cleanText (rawBodyText doc)).take 10000) ∧
    ((cleanText (rawBodyText doc)).take 10000).length = 10000 ∧
    (htmlDataOf (handleHtmlFetch url (FetchOutcome.response status statusText doc) now)).map
        HtmlData.contentLength = some (cleanText (rawBodyText doc)).length := by
  have hred := handleHtmlFetch_ok url status statusText doc now hok
  refine ⟨by rw [hred]; rfl, by rw [hred]; rfl, ?_, by rw [hred]; rfl⟩
  rw [List.length_take]
  exact Nat.min_eq_left (Nat.le_of_lt hlen)

/-- A document whose `main` region holds 10,001 non-whitespace
characters of text. -/
def c7doc : HtmlDoc :=
  { titleText := none
    metaDescContent := none
    queryFirst := fun sel =>
      if sel = "main" then
        some { textContent := List.replicate 10001 'a', innerText := [] }
      else none
    anchors := []
    headings := [] }

theorem c7doc_raw : rawBodyText c7doc = List.replicate 10001 'a' := by
  have h1 : c7doc.queryFirst "main"
      = some { textContent := List.replicate 10001 'a', innerText := [] } := by
    show (if ("main" : String) = "main" then
        some (DomElement.mk (List.replicate 10001 'a') []) else none) = _
    rw [if_pos rfl]
  show probeLoop c7doc contentSelectors = _
  unfold contentSelectors probeLoop
  rw [h1]
  refine jsOrList_of_ne_nil _ _ ?_
  intro h
  have h' : List.replicate 10001 'a' = [] := h
  have h10 : (List.replicate 10001 'a').length = 10001 := List.length_replicate ..
  rw [h'] at h10
  exact absurd h10 (by decide)

/-- Concrete instance of C7: 10,001 characters of body text, HTTP 200. -/
theorem C7_body_truncation_witness :
    responseOk 200 = true ∧
    10000 < (cleanText (rawBodyText c7doc)).length ∧
    ((handleHtmlFetch "https://example.com" (FetchOutcome.response 200 "OK" c7doc)
        "t").success = some true ∧
     (htmlDataOf (handleHtmlFetch "https://example.com"
        (FetchOutcome.response 200 "OK" c7doc) "t")).map HtmlData.bodyText
        = some ((cleanText (rawBodyText c7doc)).take 10000) ∧
     ((cleanText (rawBodyText c7doc)).take 10000).length = 10000 ∧
     (htmlDataOf (handleHtmlFetch "https://example.com"
        (FetchOutcome.response 200 "OK" c7doc) "t")).map HtmlData.contentLength
        = some (cleanText (rawBodyText c7doc)).length) := by
  have hlen : 10000 < (cleanText (rawBodyText c7doc)).length := by
    rw [c7doc_raw, cleanText_replicate_a, List.length_replicate]
    decide
  exact ⟨by decide, hlen,
    C7_body_truncation "https://example.com" 200 "OK" c7doc "t" (by decide) hlen⟩

/-- C8: on a 2xx response, the emitted links are the first 50 of the
filtered link records (filtering before truncation, document order) and
the emitted headings the first 20 of the filtered heading records; with
60 qualifying anchors and 25 qualifying headings the result has exactly
50 link records and 20 heading records. -/
theorem C8_links_headings (url : String) (status : Nat) (statusText : String)
    (doc : HtmlDoc) (now : String) (hok : responseOk status = true)
    (hl : (filteredLinks doc).length = 60) (hh : (filteredHeadings doc).length = 25) :
    (htmlDataOf (handleHtmlFetch url (FetchOutcome.response status statusText doc) now)).map
        HtmlData.links = some ((filteredLinks doc).take 50) ∧
    ((filteredLinks doc).take 50).length = 50 ∧
    (htmlDataOf (handleHtmlFetch url (FetchOutcome.response status statusText doc) now)).map
        HtmlData.headings = some ((filteredHeadings doc).take 20) ∧
    ((filteredHeadings doc).take 20).length = 20 := by
  have hred := handleHtmlFetch_ok url status statusText doc now hok
  refine ⟨by rw [hred]; rfl, ?_, by rw [hred]; rfl, ?_⟩
  · rw [List.length_take, hl]
    decide
  · rw [List.length_take, hh]
    decide

/-- A document with 60 qualifying anchors and 25 qualifying headings. -/
def c8doc : HtmlDoc :=
  { titleText := none
    metaDescContent := none
    queryFirst := fun _ => none
    anchors := List.replicate 60 { textContent := ['x'], href := ['h'] }
    headings := List.replicate 25 { tagName := "H2", textContent := ['t'] } }

theorem c8doc_links_count : (filteredLinks c8doc).length = 60 := by
  have ha : c8doc.anchors = List.replicate 60 { textContent := ['x'], href := ['h'] } := rfl
  unfold filteredLinks
  rw [ha, List.map_replicate, filter_replicate_of_true _ _ (by decide),
    List.length_replicate]

theorem c8doc_headings_count : (filteredHeadings c8doc).length = 25 := by
  have hb : c8doc.headings = List.replicate 25 { tagName := "H2", textContent := ['t'] } := rfl
  unfold filteredHeadings
  rw [hb, List.map_replicate, filter_replicate_of_true _ _ (by decide),
    List.length_replicate]

/-- Concrete instance of C8: 60 anchors, 25 headings, HTTP 200. -/
theorem C8_links_headings_witness :
    responseOk 200 = true ∧
    (filteredLinks c8doc).length = 60 ∧
    (filteredHeadings c8doc).length = 25 ∧
    ((htmlDataOf (handleHtmlFetch "https://example.com"
        (FetchOutcome.response 200 "OK" c8doc) "t")).map HtmlData.links
        = some ((filteredLinks c8doc).take 50) ∧
     ((filteredLinks c8doc).take 50).length = 50 ∧
     (htmlDataOf (handleHtmlFetch "https://example.com"
        (FetchOutcome.response 200 "OK" c8doc) "t")).map HtmlData.headings
        = some ((filteredHeadings c8doc).take 20) ∧
     ((filteredHeadings c8doc).take 20).length = 20) :=
  ⟨by decide, c8doc_links_count, c8doc_headings_count,
   C8_links_headings "https://example.com" 200 "OK" c8doc "t" (by decide)
     c8doc_links_count c8doc_headings_count⟩

/-- C9: a response whose status is not 2xx yields a failure result whose
error message is the operation prefix followed by `HTTP <status>:
<statusText>` — so the message contains the numeric status code and the
reason phrase, shown by the two bracketings — and the message carries no
`data` field, so no document extract is produced. -/
theorem C9_http_error (url : String) (status : Nat) (statusText : String)
    (doc : HtmlDoc) (now : String) (hbad : responseOk status = false) :
    (handleHtmlFetch url (FetchOutcome.response status statusText doc) now).success
        = some false ∧
    (handleHtmlFetch url (FetchOutcome.response status statusText doc) now).data = none ∧
    (handleHtmlFetch url (FetchOutcome.response status statusText doc) now).error
        = some ("Failed to fetch/parse HTML: HTTP " ++ toString status
            ++ (": " ++ statusText)) ∧
    (handleHtmlFetch url (FetchOutcome.response status statusText doc) now).error
        = some (("Failed to fetch/parse HTML: HTTP " ++ toString status ++ ": ")
            ++ statusText) := by
  have hred := handleHtmlFetch_bad url status statusText doc now hbad
  refine ⟨by rw [hred]; rfl, by rw [hred]; rfl, ?_, ?_⟩
  · rw [hred]
    show some ("Failed to fetch/parse HTML: "
        ++ ("HTTP " ++ toString status ++ ": " ++ statusText)) = _
    rw [htmlErrPrefix_assoc_a]
  · rw [hred]
    show some ("Failed to fetch/parse HTML: "
        ++ ("HTTP " ++ toString status ++ ": " ++ statusText)) = _
    rw [htmlErrPrefix_assoc_b]

/-- Concrete instance of C9: HTTP 404 Not Found. -/
theorem C9_http_error_witness :
    responseOk 404 = false ∧
    ((handleHtmlFetch "https://example.com"
        (FetchOutcome.response 404 "Not Found" (HtmlDoc.mk none none (fun _ => none) [] []))
        "t").success = some false ∧
     (handleHtmlFetch "https://example.com"
        (FetchOutcome.response 404 "Not Found" (HtmlDoc.mk none none (fun _ => none) [] []))
        "t").data = none ∧
     (handleHtmlFetch "https://example.com"
        (FetchOutcome.response 404 "Not Found" (HtmlDoc.mk none none (fun _ => none) [] []))
        "t").error = some ("Failed to fetch/parse HTML: HTTP " ++ toString 404
          ++ (": " ++ "Not Found")) ∧
     (handleHtmlFetch "https://example.com"
        (FetchOutcome.response 404 "Not Found" (HtmlDoc.mk none none (fun _ => none) [] []))
        "t").error = some (("Failed to fetch/parse HTML: HTTP " ++ toString 404 ++ ": ")
          ++ "Not Found")) :=
  ⟨by decide,
   C9_http_error "https://example.com" 404 "Not Found"
     (HtmlDoc.mk none none (fun _ => none) [] []) "t" (by decide)⟩

/-- C10: the body-text extraction probes the content-region selectors in
the fixed order `main`, `article`, `.content`, `#content`,
`.post-content`, `.entry-content`, `body`, takes the text of the first
selector that matches an element (empty when none matches), and the
resulting body text is that text with every whitespace run collapsed to
one space and the ends trimmed: the worker's computation equals the
spec-side rendering. -/
theorem C10_body_probe_spec (doc : HtmlDoc) :
    cleanText (rawBodyText doc) = specBodyText doc := by
  rw [rawBodyText_eq_spec, cleanText_eq_spec]
  rfl
